import Mathlib

/-!
Shallow embedding of the MPCD integrator layer of hoomd-blue 2.x
(`hoomd/mpcd/__init__.py`): the Python error model, the integrator state that
the Python class mutates (its own fields together with the fields it sets on
the C++ integrator object), the `set_params` and `update_methods` operations,
and the integrator constructor.  The stochastic collision rules (SRD and the
Andersen thermostat) live in C++ outside the Python layer and are modelled
from the specification.  All real arithmetic is embedded over `ℚ`.
-/

/-- The Python exception classes surfaced by the MPCD integrator layer.
`configurationError` never occurs in the source; it is included so that
statements about it can be expressed and refuted. -/
inductive PyError where
  | runtimeError (msg : String)
  | valueError (msg : String)
  | configurationError (msg : String)
deriving DecidableEq, Repr

/-- Whether an exception value is a `ConfigurationError`. -/
def raisesConfigurationError : Except PyError Unit → Bool
  | .error (.configurationError _) => true
  | _ => false

/-- The C++ anisotropic integration modes (`_md.IntegratorAnisotropicMode`). -/
inductive AnisoMode where
  | Automatic
  | Anisotropic
  | Isotropic
deriving DecidableEq, Repr

/-- A value passed as the `aniso` argument: `True`, `False`, or any other
non-`None` Python object (which the `_aniso_modes` lookup rejects).  A Python
`None` argument is modelled by `Option.none` at the call site. -/
inductive AnisoArg where
  | abool (b : Bool)
  | invalid
deriving DecidableEq, Repr

/-- The `_aniso_modes` dictionary restricted to the non-`None` keys reachable
from `set_params` (the `aniso is not None` guard makes the `None` key dead). -/
def aniso_modes : Bool → AnisoMode
  | true => .Anisotropic
  | false => .Isotropic

/-- A streaming or collision method as seen by `update_methods`: only its
`period` attribute is read there.  Periods are positive in the source
(the spec requires `period ≥ 1`). -/
structure Method where
  period : Nat
deriving DecidableEq, Repr

/-- The MPCD context slots read by `update_methods`
(`hoomd.context.current.mpcd._stream` and `..._collide`). -/
structure MPCDContext where
  stream : Option Method
  collide : Option Method
deriving DecidableEq, Repr

/-- The mutable state of a Python `mpcd.integrator` object together with the
fields it sets on its C++ integrator: `dt` and `aniso` are the Python
attributes, `cppDt`, `cppAnisoMode`, `cppMethods`, `cppStream` and
`cppCollide` mirror `setDeltaT`, `setAnisotropicMode`,
`addIntegrationMethod`, `setStreamingMethod` and `setCollisionMethod`.
`cppReady` records that the C++ integrator exists
(`check_initialization` fails when it does not). -/
structure IntegratorState where
  cppReady : Bool
  dt : ℚ
  aniso : Option AnisoArg
  cppDt : ℚ
  cppAnisoMode : AnisoMode
  cppMethods : List Nat
  cppStream : Option Method
  cppCollide : Option Method
deriving DecidableEq, Repr

/-- Modelled from the call site `self.check_initialization()`
(the base class raises RuntimeError when the C++ integrator is absent). -/
def check_initialization (s : IntegratorState) : Except PyError Unit :=
  if s.cppReady then .ok () else .error (.runtimeError "Bug in hoomd script: integrator not initialized")

/-- `integrator.set_params` (`hoomd/mpcd/__init__.py` lines 174-202): changes
`dt` and/or the anisotropic mode.  The `dt` assignment happens first; an
unknown anisotropic value then raises RuntimeError, leaving the already
assigned `dt` in place.  Status-line printing and message output are
state-free and omitted. -/
def set_params (dt? : Option ℚ) (aniso? : Option AnisoArg) (s : IntegratorState) :
    IntegratorState × Except PyError Unit :=
  match check_initialization s with
  | .error e => (s, .error e)
  | .ok _ =>
    let s1 := match dt? with
      | some d => { s with dt := d, cppDt := d }
      | none => s
    match aniso? with
    | none => (s1, .ok ())
    | some (.abool b) =>
        ({ s1 with aniso := some (.abool b), cppAnisoMode := aniso_modes b }, .ok ())
    | some .invalid =>
        (s1, .error (.runtimeError "Error setting anisotropic integration mode."))

/-- Warning emitted when no streaming method is set (line 217). -/
def missingStreamWarning : String := "Running mpcd without a streaming method!"

/-- Warning emitted when no collision method is set (line 228). -/
def missingCollideWarning : String := "Running mpcd without a collision method!"

/-- Error message raised for an incompatible collision period (line 224). -/
def badPeriodMessage : String := "Collision period must be multiple of integration period"

/-- `integrator.update_methods` (`hoomd/mpcd/__init__.py` lines 204-229):
re-registers every MD integration method from the context, then installs the
streaming and collision methods.  A missing streaming or collision method
produces a warning (collected in the returned list) and a removal call; with
both methods present, a collision period that is not a multiple of the
streaming period raises ValueError, after the methods and streaming state
have already been written. -/
def update_methods (methods : List Nat) (ctx : MPCDContext) (s : IntegratorState) :
    IntegratorState × List String × Except PyError Unit :=
  match check_initialization s with
  | .error e => (s, [], .error e)
  | .ok _ =>
    let s1 := { s with cppMethods := methods }
    let sw := match ctx.stream with
      | some st => ({ s1 with cppStream := some st }, ([] : List String))
      | none => ({ s1 with cppStream := none }, [missingStreamWarning])
    match ctx.collide with
    | some c =>
      match ctx.stream with
      | some st =>
        if c.period % st.period ≠ 0 then
          (sw.1, sw.2, .error (.valueError badPeriodMessage))
        else
          ({ sw.1 with cppCollide := some c }, sw.2, .ok ())
      | none => ({ sw.1 with cppCollide := some c }, sw.2, .ok ())
    | none =>
        ({ sw.1 with cppCollide := none }, sw.2 ++ [missingCollideWarning], .ok ())

/-- The state of a freshly constructed integrator: the C++ integrator is
created with timestep `dt`, the anisotropic mode defaults to automatic, and
no methods are installed yet. -/
def freshState (dt : ℚ) : IntegratorState :=
  { cppReady := true, dt := dt, aniso := none, cppDt := dt,
    cppAnisoMode := .Automatic, cppMethods := [], cppStream := none,
    cppCollide := none }

/-- `integrator.__init__` (`hoomd/mpcd/__init__.py` lines 145-167): raises
RuntimeError when no MPCD system has been set up in the context; otherwise
builds the C++ integrator and, when a non-`None` `aniso` argument was given,
applies it through `set_params`. -/
def integrator_init (mpcd : Option MPCDContext) (dt : ℚ) (aniso : Option AnisoArg) :
    Except PyError IntegratorState :=
  match mpcd with
  | none => .error (.runtimeError "MPCD system not initialized")
  | some _ =>
    let s0 := { freshState dt with aniso := aniso }
    match aniso with
    | none => .ok s0
    | some a =>
      match set_params none (some a) s0 with
      | (s1, .ok _) => .ok s1
      | (_, .error e) => .error e

/-- Modelled from the docstring of `integrator` (lines 123-137): MPCD particle
data is updated asynchronously in blocks of `stream_period` steps, so a
snapshot taken at base step `t` holds the MPCD particle data of the next
streaming boundary (the docstring example: streaming every 5 steps, a
snapshot at step 3 contains the data for step 5); at a boundary it holds that
boundary's own data. -/
def mpcd_snapshot_step (t S : Nat) : Nat :=
  if t % S = 0 then t else (t / S + 1) * S

/-- The boundary the specification claims a solvent snapshot reflects: the
latest completed streaming boundary at or before the query step. -/
def spec_snapshot_step (t S : Nat) : Nat := (t / S) * S

/-- Modelled from the docstring of `integrator` (lines 136-137): MD (solute)
particles are updated every base step, so a snapshot at base step `t` holds
their state as of step `t` exactly. -/
def md_snapshot_step (t : Nat) : Nat := t

/-- A three-component vector over exact rationals. -/
@[ext]
structure Vec3 where
  x : ℚ
  y : ℚ
  z : ℚ
deriving DecidableEq, Repr

instance : Add Vec3 := ⟨fun a b => ⟨a.x + b.x, a.y + b.y, a.z + b.z⟩⟩

instance : Sub Vec3 := ⟨fun a b => ⟨a.x - b.x, a.y - b.y, a.z - b.z⟩⟩

instance : Zero Vec3 := ⟨⟨0, 0, 0⟩⟩

instance : SMul ℚ Vec3 := ⟨fun c v => ⟨c * v.x, c * v.y, c * v.z⟩⟩

/-- A 3x3 matrix over rationals, stored by rows (used for the per-cell
rotation of the stochastic rotation rule). -/
structure Mat3 where
  r1 : Vec3
  r2 : Vec3
  r3 : Vec3
deriving DecidableEq, Repr

/-- Dot product of two vectors. -/
def Vec3.dot (a b : Vec3) : ℚ := a.x * b.x + a.y * b.y + a.z * b.z

/-- Matrix-vector product. -/
def Mat3.mulVec (M : Mat3) (v : Vec3) : Vec3 := ⟨M.r1.dot v, M.r2.dot v, M.r3.dot v⟩

/-- A solvent (or coupled solute) particle as the collision rule sees it. -/
structure MPCDParticle where
  mass : ℚ
  vel : Vec3
deriving DecidableEq, Repr

/-- Total mass of a cell's member particles. -/
def totalMass (ps : List MPCDParticle) : ℚ :=
  ps.foldr (fun p acc => p.mass + acc) 0

/-- Mass-weighted sum of the member velocities (the cell's momentum). -/
def cellMomentum (ps : List MPCDParticle) : Vec3 :=
  ps.foldr (fun p acc => p.mass • p.vel + acc) 0

/-- The cell's mass-averaged velocity. -/
def vcm (ps : List MPCDParticle) : Vec3 :=
  (totalMass ps)⁻¹ • cellMomentum ps

/-- Modelled from the spec (§4.3, StochasticRotation; C++ rule not under the
Python layer): every member velocity is replaced by
`v_cm + R (v - v_cm)` where `R` is the rotation matrix by the fixed angle
about the axis drawn for this cell this collision step. -/
def srd_collide (R : Mat3) (ps : List MPCDParticle) : List MPCDParticle :=
  ps.map fun p => { p with vel := vcm ps + R.mulVec (p.vel - vcm ps) }

/-- Mass-weighted sum of the random kicks paired with the particles. -/
def kickMomentum (l : List (MPCDParticle × Vec3)) : Vec3 :=
  l.foldr (fun pg acc => pg.1.mass • pg.2 + acc) 0

/-- Total mass over a paired list. -/
def pairMass (l : List (MPCDParticle × Vec3)) : ℚ :=
  l.foldr (fun pg acc => pg.1.mass + acc) 0

/-- Modelled from the spec (§4.3, AndersenThermostat; C++ rule not under the
Python layer): each member velocity deviation is replaced by an independent
random draw `g`, and all deviations are shifted by the mass-averaged draw so
their mass-weighted sum is exactly zero:
`v = v_cm + g - (Σ m g) / M`.  The draws are supplied as the list `gs`, one
per particle. -/
def at_collide (gs : List Vec3) (ps : List MPCDParticle) : List MPCDParticle :=
  (ps.zip gs).map fun pg =>
    { pg.1 with vel := vcm ps + pg.2 - (totalMass ps)⁻¹ • kickMomentum (ps.zip gs) }

/-- An empty MPCD context: neither a streaming nor a collision method set. -/
def emptyCtx : MPCDContext := { stream := none, collide := none }

/-- A concrete integrator state used to instantiate the theorems: a fresh
integrator built with `dt = 1/10` whose streaming method has period 2 and
whose collision method has period 3 (an incompatible pair, `3 % 2 ≠ 0`). -/
def sBad : IntegratorState :=
  { freshState (1/10) with cppStream := some ⟨2⟩, cppCollide := some ⟨3⟩ }

/-- A concrete two-particle cell. -/
def psEx : List MPCDParticle :=
  [⟨1, ⟨1, 0, 0⟩⟩, ⟨3, ⟨0, 1, 2⟩⟩]

/-- A concrete (non-orthogonal) matrix standing in for a sampled rotation. -/
def matEx : Mat3 := ⟨⟨0, 1, 0⟩, ⟨2, 0, 1⟩, ⟨1, 1, 1⟩⟩

/-- Concrete random draws for the Andersen thermostat, one per particle. -/
def gsEx : List Vec3 := [⟨1, 2, 3⟩, ⟨0, 0, 1⟩]

/-! Component lemmas for the vector algebra. -/

@[simp]
theorem Vec3.add_x (a b : Vec3) : (a + b).x = a.x + b.x := rfl

@[simp]
theorem Vec3.add_y (a b : Vec3) : (a + b).y = a.y + b.y := rfl

@[simp]
theorem Vec3.add_z (a b : Vec3) : (a + b).z = a.z + b.z := rfl

@[simp]
theorem Vec3.sub_x (a b : Vec3) : (a - b).x = a.x - b.x := rfl

@[simp]
theorem Vec3.sub_y (a b : Vec3) : (a - b).y = a.y - b.y := rfl

@[simp]
theorem Vec3.sub_z (a b : Vec3) : (a - b).z = a.z - b.z := rfl

@[simp]
theorem Vec3.smul_x (c : ℚ) (v : Vec3) : (c • v).x = c * v.x := rfl

@[simp]
theorem Vec3.smul_y (c : ℚ) (v : Vec3) : (c • v).y = c * v.y := rfl

@[simp]
theorem Vec3.smul_z (c : ℚ) (v : Vec3) : (c • v).z = c * v.z := rfl

@[simp]
theorem Vec3.zero_x : (0 : Vec3).x = 0 := rfl

@[simp]
theorem Vec3.zero_y : (0 : Vec3).y = 0 := rfl

@[simp]
theorem Vec3.zero_z : (0 : Vec3).z = 0 := rfl

@[simp]
theorem Vec3.dot_def (a b : Vec3) : a.dot b = a.x * b.x + a.y * b.y + a.z * b.z := rfl

@[simp]
theorem Mat3.mulVec_x (M : Mat3) (v : Vec3) : (M.mulVec v).x = M.r1.dot v := rfl

@[simp]
theorem Mat3.mulVec_y (M : Mat3) (v : Vec3) : (M.mulVec v).y = M.r2.dot v := rfl

@[simp]
theorem Mat3.mulVec_z (M : Mat3) (v : Vec3) : (M.mulVec v).z = M.r3.dot v := rfl

@[simp]
theorem totalMass_nil : totalMass [] = 0 := rfl

@[simp]
theorem totalMass_cons (p : MPCDParticle) (t : List MPCDParticle) :
    totalMass (p :: t) = p.mass + totalMass t := rfl

@[simp]
theorem cellMomentum_nil : cellMomentum [] = 0 := rfl

@[simp]
theorem cellMomentum_cons (p : MPCDParticle) (t : List MPCDParticle) :
    cellMomentum (p :: t) = p.mass • p.vel + cellMomentum t := rfl

@[simp]
theorem kickMomentum_nil : kickMomentum [] = 0 := rfl

@[simp]
theorem kickMomentum_cons (pg : MPCDParticle × Vec3) (t : List (MPCDParticle × Vec3)) :
    kickMomentum (pg :: t) = pg.1.mass • pg.2 + kickMomentum t := rfl

@[simp]
theorem pairMass_nil : pairMass [] = 0 := rfl

@[simp]
theorem pairMass_cons (pg : MPCDParticle × Vec3) (t : List (MPCDParticle × Vec3)) :
    pairMass (pg :: t) = pg.1.mass + pairMass t := rfl

/-- Momentum of a cell after rotating every velocity deviation from a common
vector `w` by the matrix `R`. -/
theorem cellMomentum_srd_map (R : Mat3) (w : Vec3) (ps : List MPCDParticle) :
    cellMomentum (ps.map fun p => { p with vel := w + R.mulVec (p.vel - w) })
      = totalMass ps • w + R.mulVec (cellMomentum ps - totalMass ps • w) := by
  induction ps with
  | nil => ext <;> simp
  | cons p t ih =>
      simp only [List.map_cons, cellMomentum_cons, totalMass_cons, ih]
      ext <;> simp <;> ring

/-- The cell momentum scaled back from the mass-averaged velocity. -/
theorem totalMass_smul_vcm (ps : List MPCDParticle) (h : totalMass ps ≠ 0) :
    totalMass ps • vcm ps = cellMomentum ps := by
  unfold vcm
  ext <;> simp only [Vec3.smul_x, Vec3.smul_y, Vec3.smul_z] <;>
    rw [← mul_assoc, mul_inv_cancel₀ h, one_mul]

/-- The stochastic rotation rule conserves the cell's momentum. -/
theorem srd_conserves (R : Mat3) (ps : List MPCDParticle) (h : totalMass ps ≠ 0) :
    cellMomentum (srd_collide R ps) = cellMomentum ps := by
  unfold srd_collide
  rw [cellMomentum_srd_map R (vcm ps) ps, totalMass_smul_vcm ps h]
  ext <;> simp

/-- Momentum of a cell after giving each particle the velocity
`a + (its kick) - b`. -/
theorem cellMomentum_at_map (a b : Vec3) (l : List (MPCDParticle × Vec3)) :
    cellMomentum (l.map fun pg => { pg.1 with vel := a + pg.2 - b })
      = pairMass l • (a - b) + kickMomentum l := by
  induction l with
  | nil => ext <;> simp
  | cons pg t ih =>
      simp only [List.map_cons, cellMomentum_cons, pairMass_cons, kickMomentum_cons, ih]
      ext <;> simp <;> ring

/-- Zipping with one kick per particle does not change the total mass. -/
theorem pairMass_zip (ps : List MPCDParticle) (gs : List Vec3)
    (h : gs.length = ps.length) : pairMass (ps.zip gs) = totalMass ps := by
  induction ps generalizing gs with
  | nil => simp
  | cons p t ih =>
      cases gs with
      | nil => exact absurd h (by simp)
      | cons g gt =>
          simp only [List.zip_cons_cons, pairMass_cons, totalMass_cons]
          rw [ih gt (by simpa using h)]

/-- The Andersen thermostat rule conserves the cell's momentum. -/
theorem at_conserves (gs : List Vec3) (ps : List MPCDParticle)
    (hM : totalMass ps ≠ 0) (hlen : gs.length = ps.length) :
    cellMomentum (at_collide gs ps) = cellMomentum ps := by
  unfold at_collide
  rw [cellMomentum_at_map (vcm ps) ((totalMass ps)⁻¹ • kickMomentum (ps.zip gs)) (ps.zip gs),
    pairMass_zip ps gs hlen]
  have hMM : totalMass ps * (totalMass ps)⁻¹ = 1 := mul_inv_cancel₀ hM
  ext <;> simp [vcm] <;>
    rw [mul_sub, ← mul_assoc, ← mul_assoc, hMM, one_mul, one_mul] <;>
    rw [sub_add_cancel]

/-- C2 (amended): modelled from the integrator docstring, a solvent snapshot
query at base step `t` returns the state of the earliest streaming boundary
at or after `t` (the next boundary, `ceil(t / stream_period) * stream_period`),
not the latest completed boundary before `t`; a query exactly at a boundary
returns that boundary's own post-update state. -/
theorem C2_snapshot_next_boundary (t S : Nat) (hS : 0 < S) :
    t ≤ mpcd_snapshot_step t S
    ∧ mpcd_snapshot_step t S < t + S
    ∧ S ∣ mpcd_snapshot_step t S
    ∧ (t % S = 0 → mpcd_snapshot_step t S = t) := by
  unfold mpcd_snapshot_step
  by_cases h : t % S = 0
  · simp only [if_pos h]
    exact ⟨le_refl t, Nat.lt_add_of_pos_right hS, Nat.dvd_of_mod_eq_zero h, fun _ => trivial⟩
  · simp only [if_neg h]
    have hd := Nat.div_add_mod t S
    have hm : t % S < S := Nat.mod_lt t hS
    have hpos : 0 < t % S := Nat.pos_of_ne_zero h
    refine ⟨?_, ?_, dvd_mul_left S (t / S + 1), fun ht => absurd ht h⟩
    · calc t = S * (t / S) + t % S := hd.symm
        _ ≤ S * (t / S) + S := Nat.add_le_add_left hm.le _
        _ = (t / S + 1) * S := by ring
    · calc (t / S + 1) * S = S * (t / S) + S := by ring
        _ < S * (t / S) + t % S + S := add_lt_add_right (Nat.lt_add_of_pos_right hpos) S
        _ = t + S := by rw [hd]

/-- C2: counterexample to the claim as stated.  With `stream_period = 5`, a
snapshot query at step 3 (strictly between the boundaries 0 and 5) reflects
step 5, the next boundary, while the claimed
`floor(t / stream_period) * stream_period` is the prior boundary 0. -/
theorem C2_counterexample :
    mpcd_snapshot_step 3 5 = 5 ∧ spec_snapshot_step 3 5 = 0
    ∧ mpcd_snapshot_step 3 5 ≠ spec_snapshot_step 3 5 := by
  decide

/-- C2: witness instantiating the amended snapshot theorem at `t = 3`,
`S = 5`. -/
theorem C2_witness :
    0 < 5
    ∧ (3 ≤ mpcd_snapshot_step 3 5
      ∧ mpcd_snapshot_step 3 5 < 3 + 5
      ∧ 5 ∣ mpcd_snapshot_step 3 5
      ∧ (3 % 5 = 0 → mpcd_snapshot_step 3 5 = 3)) :=
  ⟨by decide, C2_snapshot_next_boundary 3 5 (by decide)⟩

/-- C1 (amended): with a streaming method of period `S` and a collision
method of period `C` both attached, `update_methods` raises ValueError (not
ConfigurationError) when `C mod S ≠ 0`, and succeeds when `C mod S = 0`. -/
theorem C1_period_validation (methods : List Nat) (S C : Nat) (s : IntegratorState)
    (hready : s.cppReady = true) (hS : 0 < S) :
    (C % S ≠ 0 →
      (update_methods methods ⟨some ⟨S⟩, some ⟨C⟩⟩ s).2.2
        = .error (.valueError badPeriodMessage))
    ∧ (C % S = 0 → (update_methods methods ⟨some ⟨S⟩, some ⟨C⟩⟩ s).2.2 = .ok ()) := by
  constructor <;> intro h <;> simp [update_methods, check_initialization, hready, h]

/-- C1: counterexample to the claim as stated.  With stream period 2 and
collision period 3 (`3 mod 2 ≠ 0`), `update_methods` raises ValueError, not
ConfigurationError. -/
theorem C1_counterexample :
    (update_methods [] ⟨some ⟨2⟩, some ⟨3⟩⟩ (freshState (1/10))).2.2
        = .error (.valueError badPeriodMessage)
    ∧ raisesConfigurationError
        (update_methods [] ⟨some ⟨2⟩, some ⟨3⟩⟩ (freshState (1/10))).2.2 = false :=
  ⟨rfl, rfl⟩

/-- C1: witness instantiating the amended validation theorem with compatible
periods 2 and 4. -/
theorem C1_witness :
    (freshState (1/10)).cppReady = true ∧ 0 < 2
    ∧ (update_methods [] ⟨some ⟨2⟩, some ⟨4⟩⟩ (freshState (1/10))).2.2 = .ok () :=
  ⟨rfl, by decide, (C1_period_validation [] 2 4 (freshState (1/10)) rfl (by decide)).2 rfl⟩

/-- C3: counterexample to the claim as stated.  On an integrator whose
attached streaming period is 2 and collision period is 3 (incompatible,
`3 mod 2 ≠ 0`), a `set_params` call changing `dt` completes without raising
anything at all. -/
theorem C3_counterexample :
    sBad.cppStream = some ⟨2⟩ ∧ sBad.cppCollide = some ⟨3⟩ ∧ 3 % 2 ≠ 0
    ∧ (set_params (some (1/100)) none sBad).2 = .ok () :=
  ⟨rfl, rfl, by decide, rfl⟩

/-- C3 (amended): `set_params` performs no period re-validation at all — its
exception outcome is independent of the attached streaming/collision methods
and is never a ConfigurationError; the
`collide_period mod stream_period = 0` check is instead performed by
`update_methods`, which raises ValueError synchronously with that call. -/
theorem C3_no_validation_in_set_params (dt? : Option ℚ) (an? : Option AnisoArg)
    (s : IntegratorState) (st co : Option Method) :
    (set_params dt? an? s).2
        = (set_params dt? an? { s with cppStream := st, cppCollide := co }).2
    ∧ raisesConfigurationError (set_params dt? an? s).2 = false
    ∧ ∀ (ms : List Nat) (S C : Nat), s.cppReady = true → 0 < S → C % S ≠ 0 →
        (update_methods ms ⟨some ⟨S⟩, some ⟨C⟩⟩ s).2.2
          = .error (.valueError badPeriodMessage) := by
  refine ⟨?_, ?_, ?_⟩
  · rcases hready : s.cppReady with _ | _ <;>
      rcases an? with _ | a <;> (try rcases a with b | _) <;> rcases dt? with _ | d <;>
        simp [set_params, check_initialization, hready]
  · rcases hready : s.cppReady with _ | _ <;>
      rcases an? with _ | a <;> (try rcases a with b | _) <;> rcases dt? with _ | d <;>
        simp [set_params, check_initialization, hready, raisesConfigurationError]
  · intro ms S C hready hS hne
    simp [update_methods, check_initialization, hready, hne]

/-- C3: witness instantiating the amended theorem on the incompatible state
`sBad`. -/
theorem C3_witness :
    (set_params (some (1/100)) none sBad).2
        = (set_params (some (1/100)) none
            { sBad with cppStream := none, cppCollide := none }).2
    ∧ raisesConfigurationError (set_params (some (1/100)) none sBad).2 = false
    ∧ (update_methods [] ⟨some ⟨2⟩, some ⟨5⟩⟩ sBad).2.2
        = .error (.valueError badPeriodMessage) :=
  have h := C3_no_validation_in_set_params (some (1/100)) none sBad none none
  ⟨h.1, h.2.1, h.2.2 [] 2 5 rfl (by decide) (by decide)⟩

/-- C4: for any cell under either collision rule, the mass-weighted sum of
member velocities after the collision equals the one before: exactly, in the
rational-arithmetic embedding, hence within any floating-point tolerance. -/
theorem C4_momentum_conservation (R : Mat3) (gs : List Vec3) (ps : List MPCDParticle)
    (hM : totalMass ps ≠ 0) (hlen : gs.length = ps.length) :
    cellMomentum (srd_collide R ps) = cellMomentum ps
    ∧ cellMomentum (at_collide gs ps) = cellMomentum ps :=
  ⟨srd_conserves R ps hM, at_conserves gs ps hM hlen⟩

/-- C4: witness on a concrete two-particle cell with a concrete sampled
matrix and concrete thermostat draws. -/
theorem C4_witness :
    totalMass psEx ≠ 0 ∧ gsEx.length = psEx.length
    ∧ cellMomentum (srd_collide matEx psEx) = cellMomentum psEx
    ∧ cellMomentum (at_collide gsEx psEx) = cellMomentum psEx :=
  have hM : totalMass psEx ≠ 0 := by norm_num [totalMass, psEx]
  have h := C4_momentum_conservation matEx gsEx psEx hM rfl
  ⟨hM, rfl, h.1, h.2⟩

/-- C5: constructing the MPCD integrator with no MPCD system in the context
raises RuntimeError, and any successful construction implies the MPCD system
was present. -/
theorem C5_init_requires_system (dt : ℚ) (an : Option AnisoArg) (m : Option MPCDContext) :
    integrator_init none dt an = .error (.runtimeError "MPCD system not initialized")
    ∧ ∀ s, integrator_init m dt an = .ok s → m ≠ none := by
  constructor
  · rfl
  · intro s h hm
    subst hm
    rw [show integrator_init none dt an
          = .error (.runtimeError "MPCD system not initialized") from rfl] at h
    exact Except.noConfusion h

/-- C5: witness — construction fails on an absent system and succeeds on a
present one. -/
theorem C5_witness :
    integrator_init none (1/10) none = .error (.runtimeError "MPCD system not initialized")
    ∧ some emptyCtx ≠ (none : Option MPCDContext) :=
  ⟨(C5_init_requires_system (1/10) none (some emptyCtx)).1,
   (C5_init_requires_system (1/10) none (some emptyCtx)).2 (freshState (1/10)) rfl⟩

/-- C6: whenever the streaming method, the collision method, or both are
absent, `update_methods` completes without raising and emits the matching
non-fatal warning for each absent method. -/
theorem C6_absent_methods_nonfatal (methods : List Nat) (ctx : MPCDContext)
    (s : IntegratorState) (hready : s.cppReady = true)
    (habs : ctx.stream = none ∨ ctx.collide = none) :
    (update_methods methods ctx s).2.2 = .ok ()
    ∧ (ctx.stream = none → missingStreamWarning ∈ (update_methods methods ctx s).2.1)
    ∧ (ctx.collide = none → missingCollideWarning ∈ (update_methods methods ctx s).2.1) := by
  rcases ctx with ⟨st, co⟩
  rcases st with _ | st <;> rcases co with _ | co <;>
    simp_all [update_methods, check_initialization]

/-- C6: witness with both methods absent. -/
theorem C6_witness :
    (freshState (1/10)).cppReady = true
    ∧ (emptyCtx.stream = none ∨ emptyCtx.collide = none)
    ∧ (update_methods [] emptyCtx (freshState (1/10))).2.2 = .ok ()
    ∧ missingStreamWarning ∈ (update_methods [] emptyCtx (freshState (1/10))).2.1 :=
  have h := C6_absent_methods_nonfatal [] emptyCtx (freshState (1/10)) rfl (Or.inl rfl)
  ⟨rfl, Or.inl rfl, h.1, h.2.1 rfl⟩

/-- C8: `update_methods` registers exactly the context's solute integration
methods on the C++ integrator (each attached method, once, in order), and,
per the docstring model, a solute snapshot at base step `t` reflects step `t`
exactly. -/
theorem C8_solute_state_exact (methods : List Nat) (ctx : MPCDContext)
    (s : IntegratorState) (hready : s.cppReady = true) :
    ((update_methods methods ctx s).1).cppMethods = methods
    ∧ ∀ t : Nat, md_snapshot_step t = t := by
  constructor
  · rcases ctx with ⟨st, co⟩
    rcases st with _ | st <;> rcases co with _ | co <;>
      simp [update_methods, check_initialization, hready]
    by_cases hc : co.period % st.period = 0 <;> simp [hc]
  · intro t
    rfl

/-- C8: witness with three attached methods. -/
theorem C8_witness :
    (freshState (1/10)).cppReady = true
    ∧ ((update_methods [1, 2, 3] emptyCtx (freshState (1/10))).1).cppMethods = [1, 2, 3]
    ∧ md_snapshot_step 7 = 7 :=
  have h := C8_solute_state_exact [1, 2, 3] emptyCtx (freshState (1/10)) rfl
  ⟨rfl, h.1, h.2 7⟩

/-- C9: calling `set_params` with a new `dt` and an invalid `aniso` raises
RuntimeError, but the returned state already carries the new `dt`: the
assignment is not rolled back, so the update is not atomic. -/
theorem C9_set_params_not_atomic (d : ℚ) (s : IntegratorState)
    (hready : s.cppReady = true) :
    set_params (some d) (some .invalid) s
      = ({ s with dt := d, cppDt := d },
         .error (.runtimeError "Error setting anisotropic integration mode.")) := by
  simp [set_params, check_initialization, hready]

/-- C9: witness on a fresh integrator, changing `dt` to `7/100`. -/
theorem C9_witness :
    (freshState (1/10)).cppReady = true
    ∧ set_params (some (7/100)) (some .invalid) (freshState (1/10))
        = ({ freshState (1/10) with dt := 7/100, cppDt := 7/100 },
           .error (.runtimeError "Error setting anisotropic integration mode.")) :=
  ⟨rfl, C9_set_params_not_atomic (7/100) (freshState (1/10)) rfl⟩

/-- C10: with a collision method attached and no streaming method,
`update_methods` performs no period check for any collision period: it emits
only the missing-streaming warning, installs the collision method, and
returns without raising. -/
theorem C10_no_check_without_stream (methods : List Nat) (c : Method)
    (s : IntegratorState) (hready : s.cppReady = true) :
    update_methods methods ⟨none, some c⟩ s
      = ({ s with cppMethods := methods, cppStream := none, cppCollide := some c },
         [missingStreamWarning], .ok ()) := by
  simp [update_methods, check_initialization, hready]

/-- C10: witness with collision period 7 and no streaming method. -/
theorem C10_witness :
    (freshState (1/10)).cppReady = true
    ∧ update_methods [] ⟨none, some ⟨7⟩⟩ (freshState (1/10))
        = ({ freshState (1/10) with
              cppMethods := [], cppStream := none, cppCollide := some ⟨7⟩ },
           [missingStreamWarning], .ok ()) :=
  ⟨rfl, C10_no_check_without_stream [] ⟨7⟩ (freshState (1/10)) rfl⟩
